import Mathlib

/-!
Verification of the endpoint-initialization core of the LibreChat fork:
`api/server/services/Endpoints/openAI/initialize.js` (the `initializeClient`
resolver) and `api/server/routes/keys.js` (the key-management route).

JavaScript values are shallowly embedded: absent/`undefined` values become
`Option`, JS object spread on header maps becomes list append with
last-occurrence lookup, JS mutation of the caller-supplied
`endpointOption.model_parameters` object is made explicit with a small heap
of object references, and code that `throw`s is embedded in `Except`.
-/

/-- JS-style substring containment, `String.prototype.includes`:
case-sensitive literal containment of `pat` in `s`. -/
def jsIncludes (s pat : String) : Bool :=
  let sl := s.toList
  let pl := pat.toList
  (List.range (sl.length + 1)).any (fun i => (sl.drop i).take pl.length == pl)

/-- JS nullish coalescing `a ?? b` on optional values. -/
def jsNullish {α : Type} (a b : Option α) : Option α :=
  match a with
  | some x => some x
  | none => b

/-- JS truthiness of an optional string: `undefined` and `""` are falsy. -/
def jsFalsy (a : Option String) : Bool :=
  match a with
  | none => true
  | some s => s == ""

/-- JS truthiness of an optional number: `undefined` and `0` are falsy. -/
def natTruthy (a : Option Nat) : Bool :=
  match a with
  | none => false
  | some n => n != 0

/-- A JS object used as a header map: insertion-ordered key/value pairs,
where a later entry for the same key shadows an earlier one. -/
abbrev HeaderMap := List (String × String)

/-- Header lookup: the value of the latest entry for `k`, as in a JS object
where later assignments/spreads overwrite earlier ones. -/
def getHeader (m : HeaderMap) (k : String) : Option String :=
  (m.reverse.find? (fun p => p.1 == k)).map (fun p => p.2)

/-- JS object spread `{ ...a, ...b }` on header maps: entries of `b` shadow
entries of `a` under `getHeader`. -/
def objSpread (a b : HeaderMap) : HeaderMap := a ++ b

/-- JS property assignment `m[k] = v` on a header map. -/
def setHeader (m : HeaderMap) (k v : String) : HeaderMap := m ++ [(k, v)]

/-- Association-list lookup by string key (JS `map[key]` access). -/
def assocLookup {α : Type} (m : List (String × α)) (k : String) : Option α :=
  (m.find? (fun p => p.1 == k)).map (fun p => p.2)

/-- The Azure options block derived from a deployment group's credentials. -/
structure AzureOptions where
  azureOpenAIApiKey : String
  azureOpenAIApiVersion : Option String
  azureOpenAIApiInstanceName : String
  azureOpenAIApiDeploymentName : String
  deriving DecidableEq

/-- Configuration record of one Azure deployment group, as consumed by
`initializeClient` (add/drop parameter lists, force-prompt flag) and by the
deployment mapper (credentials, base URL, headers, serverless flag). -/
structure GroupConfig where
  apiKey : String
  instanceName : String
  deploymentName : String
  version : Option String
  baseURL : Option String
  serverless : Bool
  headers : HeaderMap
  addParams : Option (List String)
  dropParams : Option (List String)
  forcePrompt : Option Bool
  deriving DecidableEq

/-- The app-level Azure endpoint configuration `req.app.locals.azureOpenAI`. -/
structure AzureConfig where
  modelGroupMap : List (String × String)
  groupMap : List (String × GroupConfig)
  titleConvo : Option Bool
  titleModel : Option String
  titleMethod : Option String
  streamRate : Option Nat
  deriving DecidableEq

/-- An app-level base endpoint configuration (`req.app.locals.openAI` or
`req.app.locals.all`), `TBaseEndpoint`. -/
structure BaseEndpointCfg where
  streamRate : Option Nat
  titleModel : Option String
  deriving DecidableEq

/-- The environment variables destructured from `process.env` by
`initializeClient`. -/
structure EnvVars where
  PROXY : Option String
  OPENAI_API_KEY : Option String
  AZURE_API_KEY : Option String
  OPENAI_REVERSE_PROXY : Option String
  AZURE_OPENAI_BASEURL : Option String
  OPENAI_SUMMARIZE : Option String
  DEBUG_OPENAI : Option String
  OPENROUTER_KEY : Option String
  deriving DecidableEq

/-- The caller-supplied model-parameter object (`endpointOption.model_parameters`):
a mutable JS object, referenced through the heap. `model` and `user` are the
fields stamped by `initializeClient` in options-only mode. -/
structure ModelParams where
  model : Option String
  user : Option String
  rest : List (String × String)
  deriving DecidableEq

/-- A heap of JS object references for the model-parameter objects; a `Nat`
reference dereferences to the object it denotes, if allocated. -/
abbrev Heap := Nat → Option ModelParams

/-- Heap update: JS in-place mutation of the object behind reference `r`. -/
def heapSet (h : Heap) (r : Nat) (v : ModelParams) : Heap :=
  fun j => if j == r then some v else h j

/-- The request-level endpoint option bundle spread into the initial
`clientOptions` (`...endpointOption`); `model_parameters` is a reference to
the caller's mutable model-parameter object. -/
structure EndpointOption where
  streamRate : Option Nat
  headers : Option HeaderMap
  model_parameters : Nat
  deriving DecidableEq

/-- The pieces of the Express request read by `initializeClient`:
request-body fields, the authenticated user, the app-level configuration
objects in `req.app.locals`, and (for the independence property) the content
of the per-user key store, which this code never reads. -/
structure Req where
  bodyKey : Option String
  bodyModel : Option String
  bodyEndpoint : Option String
  userId : String
  azureLocals : Option AzureConfig
  openAILocals : Option BaseEndpointCfg
  allLocals : Option BaseEndpointCfg
  userKeys : List (String × String)
  deriving DecidableEq

/-- The full argument bundle of `initializeClient`. -/
structure InitInput where
  env : EnvVars
  req : Req
  endpointOption : EndpointOption
  optionsOnly : Bool
  overrideEndpoint : Option String
  overrideModel : Option String
  deriving DecidableEq

/-- The accumulated `clientOptions` record. `modelOptions` is the reference
to the model-parameter object attached in options-only mode; `azure = none`
embeds the JS falsy `clientOptions.azure = false` of the serverless path. -/
structure ClientOptions where
  contextStrategy : Option String
  proxy : Option String
  debug : Bool
  reverseProxyUrl : Option String
  headers : Option HeaderMap
  titleConvo : Option Bool
  titleModel : Option String
  titleMethod : Option String
  streamRate : Option Nat
  addParams : Option (List String)
  dropParams : Option (List String)
  forcePrompt : Option Bool
  azure : Option AzureOptions
  defaultQuery : Option HeaderMap
  modelOptions : Option Nat
  deriving DecidableEq

/-- Configuration errors of the Azure deployment mapper. -/
inductive ConfigError where
  | unknownModel
  | unknownGroup
  deriving DecidableEq

/-- The errors `initializeClient` can throw: the (dead) no-user-key error,
the missing-credential error naming the endpoint, a mapper configuration
error, and a JS runtime crash on an invalid object access. -/
inductive InitError where
  | noUserKey
  | apiKeyNotProvided (endpoint : String)
  | configError (e : ConfigError)
  | crash
  deriving DecidableEq

/-- Output of the Azure deployment mapper. -/
structure MappedAzure where
  azureOptions : AzureOptions
  baseURL : Option String
  headers : HeaderMap
  serverless : Bool
  deriving DecidableEq

/-- The `llmConfig` part of the options-only result. A throttle callback is
represented by its per-token delay in milliseconds, since the attached
`handleLLMNewToken` hook does exactly `sleep(streamRate)`. -/
structure LLMConfig where
  apiKey : String
  modelOptions : Option Nat
  callbacks : Option (List Nat)
  deriving DecidableEq

/-- The options-only result object returned by `getLLMConfig`. -/
structure LLMOptions where
  llmConfig : LLMConfig
  deriving DecidableEq

/-- The result of `initializeClient`: a thrown error, an options-only
configuration object, or a full client (the client captures the resolved
key and merged options) together with `openAIApiKey`. -/
inductive InitOutcome where
  | failure (e : InitError)
  | optionsOnly (opts : LLMOptions)
  | fullClient (client : String × ClientOptions) (openAIApiKey : String)
  deriving DecidableEq

/-- Modelled from the spec: `isEnabled` (from `~/server/utils`, missing from
src/) parses an environment toggle flag (summarize, debug) as a boolean. -/
def isEnabled (v : Option String) : Bool :=
  match v with
  | some s => s == "true"
  | none => false

/-- Modelled from the spec: `resolveHeaders` (from `librechat-data-provider`,
missing from src/) is applied to the merged header map; the spec describes
no transformation of the merged headers, so it is the identity. -/
def resolveHeaders (h : HeaderMap) : HeaderMap := h

/-- Modelled from the spec: `mapModelToAzureConfig` (from
`librechat-data-provider`, missing from src/). Given
`(modelName, modelGroupMap, groupMap)`, produce
`{ azureOptions, baseURL, headers, serverless }`; fails with `UnknownModel`
when the model has no entry in `modelGroupMap` and with `UnknownGroup` when
the resolved group has no entry in `groupMap`; `azureOptions` is populated
from the group's credentials. -/
def mapModelToAzureConfig (modelName : String) (modelGroupMap : List (String × String))
    (groupMap : List (String × GroupConfig)) : Except ConfigError MappedAzure :=
  match assocLookup modelGroupMap modelName with
  | none => .error .unknownModel
  | some groupName =>
    match assocLookup groupMap groupName with
    | none => .error .unknownGroup
    | some g =>
      .ok { azureOptions := { azureOpenAIApiKey := g.apiKey,
                              azureOpenAIApiVersion := g.version,
                              azureOpenAIApiInstanceName := g.instanceName,
                              azureOpenAIApiDeploymentName := g.deploymentName },
            baseURL := g.baseURL, headers := g.headers, serverless := g.serverless }

/-- Modelled from the spec: `getAzureCredentials` (from `~/utils`, missing
from src/) reads the process-wide Azure defaults; the spec names only the
Azure API key among them. -/
def getAzureCredentials (env : EnvVars) : AzureOptions :=
  { azureOpenAIApiKey := env.AZURE_API_KEY.getD "",
    azureOpenAIApiVersion := none,
    azureOpenAIApiInstanceName := "",
    azureOpenAIApiDeploymentName := "" }

/-- Modelled from the spec: `getLLMConfig` (from
`~/server/services/Endpoints/openAI/llm`, missing from src/) produces the
pure configuration object for downstream model invocation from the resolved
key and merged client options; it attaches no callbacks field. -/
def getLLMConfig (apiKey : String) (co : ClientOptions) : LLMOptions :=
  { llmConfig := { apiKey := apiKey, modelOptions := co.modelOptions, callbacks := none } }

/-- `overrideModel ?? req.body.model` (initialize.js line 32). -/
def jsModelName (inp : InitInput) : Option String :=
  jsNullish inp.overrideModel inp.req.bodyModel

/-- `overrideEndpoint ?? req.body.endpoint ?? EModelEndpoint.openAI`
(initialize.js line 35). -/
def jsEndpoint (inp : InitInput) : String :=
  (jsNullish inp.overrideEndpoint inp.req.bodyEndpoint).getD "openAI"

/-- `userProvidesKey` is hard-wired to `false` (initialize.js line 49):
user-provided API keys are disabled in this fork. -/
def userProvidesKey : Bool := false

/-- The initial `clientOptions` literal with `...endpointOption` spread over
it (initialize.js lines 60-66); the OpenRouter base URL is always set as the
reverse proxy. -/
def baseClientOptions (inp : InitInput) : ClientOptions :=
  { contextStrategy := if isEnabled inp.env.OPENAI_SUMMARIZE then some "summarize" else none,
    proxy := inp.env.PROXY,
    debug := isEnabled inp.env.DEBUG_OPENAI,
    reverseProxyUrl := some "https://openrouter.ai/api/v1",
    headers := inp.endpointOption.headers,
    titleConvo := none,
    titleModel := none,
    titleMethod := none,
    streamRate := inp.endpointOption.streamRate,
    addParams := none,
    dropParams := none,
    forcePrompt := none,
    azure := none,
    defaultQuery := none,
    modelOptions := none }

/-- The `isAzureOpenAI && azureConfig` branch (initialize.js lines 72-108):
map the model to its deployment group, apply the Azure-derived overrides to
`clientOptions`, and take the API key from the derived azure options; when
the group is serverless, put the key in the `api-key` header, attach the
`api-version` query parameter if an API version is configured, and leave the
`azure` block falsy. Returns the updated options and the new `apiKey`. -/
def azureConfigStage (modelName : Option String) (cfg : AzureConfig) (co : ClientOptions) :
    Except InitError (ClientOptions × Option String) :=
  match modelName with
  | none => .error (.configError .unknownModel)
  | some mn =>
    match mapModelToAzureConfig mn cfg.modelGroupMap cfg.groupMap with
    | .error e => .error (.configError e)
    | .ok m =>
      match assocLookup cfg.modelGroupMap mn with
      | none => .error .crash
      | some groupName =>
        match assocLookup cfg.groupMap groupName with
        | none => .error .crash
        | some g =>
          let headers1 := resolveHeaders (objSpread m.headers (co.headers.getD []))
          let azureRate := if jsIncludes mn "gpt-4" then 30 else 17
          let co1 := { co with
            reverseProxyUrl := jsNullish m.baseURL co.reverseProxyUrl,
            headers := some headers1,
            titleConvo := cfg.titleConvo,
            titleModel := cfg.titleModel,
            streamRate := some (cfg.streamRate.getD azureRate),
            titleMethod := some (cfg.titleMethod.getD "completion"),
            addParams := g.addParams,
            dropParams := g.dropParams,
            forcePrompt := g.forcePrompt,
            azure := if m.serverless then none else some m.azureOptions }
          let key := m.azureOptions.azureOpenAIApiKey
          if m.serverless then
            .ok ({ co1 with
                    defaultQuery :=
                      match m.azureOptions.azureOpenAIApiVersion with
                      | some v => if v == "" then none else some [("api-version", v)]
                      | none => none,
                    headers := some (setHeader headers1 "api-key" key) },
                 some key)
          else
            .ok (co1, some key)

/-- The `else if (isAzureOpenAI)` branch (initialize.js lines 109-112):
Azure endpoint with no app-level Azure config; credentials come from the
process-wide Azure defaults. -/
def azureEnvStage (env : EnvVars) (co : ClientOptions) : ClientOptions × Option String :=
  let creds := getAzureCredentials env
  ({ co with azure := some creds }, some creds.azureOpenAIApiKey)

/-- Branch selection of initialize.js lines 55-112: the key starts as
`OPENROUTER_KEY`; the Azure branches may replace options and key. -/
def stage1 (inp : InitInput) (isAzure : Bool) :
    Except InitError (ClientOptions × Option String) :=
  if isAzure then
    match inp.req.azureLocals with
    | some cfg => azureConfigStage (jsModelName inp) cfg (baseClientOptions inp)
    | none => .ok (azureEnvStage inp.env (baseClientOptions inp))
  else
    .ok (baseClientOptions inp, inp.env.OPENROUTER_KEY)

/-- Initialize.js lines 114-138: the non-Azure app-level endpoint config
layer, the app-level `all` config layer (both assign `streamRate`
unconditionally when the config object exists), the dead user-key check, and
the missing-credential check. -/
def finishResolve (endpoint : String) (isAzure : Bool)
    (openAILocals allLocals : Option BaseEndpointCfg)
    (r : Except InitError (ClientOptions × Option String)) :
    Except InitError (ClientOptions × String) :=
  match r with
  | .error e => .error e
  | .ok (co1, key1) =>
    let co2 :=
      match isAzure, openAILocals with
      | false, some oc => { co1 with streamRate := oc.streamRate, titleModel := oc.titleModel }
      | _, _ => co1
    let co3 :=
      match allLocals with
      | some ac => { co2 with streamRate := ac.streamRate }
      | none => co2
    if userProvidesKey && jsFalsy key1 then
      .error .noUserKey
    else if jsFalsy key1 then
      .error (.apiKeyNotProvided endpoint)
    else
      .ok (co3, key1.getD "")

/-- The configuration-resolution prefix of `initializeClient`
(initialize.js lines 21-138): everything up to the missing-credential check,
producing the merged `clientOptions` and the resolved non-empty key. -/
def resolveOptions (inp : InitInput) : Except InitError (ClientOptions × String) :=
  let endpoint := jsEndpoint inp
  let isAzure := endpoint == "azureOpenAI"
  finishResolve endpoint isAzure inp.req.openAILocals inp.req.allLocals (stage1 inp isAzure)

/-- `initializeClient` (initialize.js lines 13-164). In options-only mode
(lines 140-157) the caller's `model_parameters` object is mutated in place
(model name, then user id), attached by reference to the options, and a
single throttle callback of delay `streamRate` is added when the merged
stream rate is truthy. Otherwise a full client capturing the key and merged
options is returned (lines 159-163). -/
def initializeClient (inp : InitInput) (heap : Heap) : InitOutcome × Heap :=
  match resolveOptions inp with
  | .error e => (.failure e, heap)
  | .ok (co, key) =>
    if inp.optionsOnly then
      let ref := inp.endpointOption.model_parameters
      match heap ref with
      | none => (.failure .crash, heap)
      | some mp =>
        let mp1 := { mp with model := jsModelName inp }
        let heap1 := heapSet heap ref mp1
        let co1 := { co with modelOptions := some ref }
        let mp2 := { mp1 with user := some inp.req.userId }
        let heap2 := heapSet heap1 ref mp2
        let options := getLLMConfig key co1
        if natTruthy co1.streamRate then
          (.optionsOnly { options with
              llmConfig := { options.llmConfig with
                callbacks := some [co1.streamRate.getD 0] } }, heap2)
        else
          (.optionsOnly options, heap2)
    else
      (.fullClient (key, co) key, heap)

/-- The per-user key store of the external `UserService`: one entry per
(userId, provider name) pair carrying the key payload. -/
structure KeyStore where
  entries : List (String × String × String)
  deriving DecidableEq

/-- Modelled from the spec: `updateUserKey` (from `UserService`, missing
from src/) upserts the caller's key record for the named provider. -/
def updateUserKey (store : KeyStore) (userId name value : String) : KeyStore :=
  { entries := (userId, name, value) ::
      store.entries.filter (fun e => !(e.1 == userId && e.2.1 == name)) }

/-- The caller's stored key payload for a provider, if any. -/
def getKeyRecord (store : KeyStore) (userId name : String) : Option String :=
  (store.entries.find? (fun e => e.1 == userId && e.2.1 == name)).map (fun e => e.2.2)

/-- An HTTP response of the keys route: status code and optional body. -/
structure PutKeysResponse where
  status : Nat
  body : Option String
  deriving DecidableEq

/-- The authenticated `PUT /keys` handler (keys.js lines 6-13): reject the
locked `openAI` provider with 403 and touch nothing; otherwise upsert the
caller's key record and respond 201 with an empty body. -/
def putKeysHandler (store : KeyStore) (userId name value : String) :
    PutKeysResponse × KeyStore :=
  if name == "openAI" then
    ({ status := 403,
       body := some "OpenAI API keys are managed by the system administrator" }, store)
  else
    ({ status := 201, body := none }, updateUserKey store userId name value)

/-! ## Helper lemmas -/

theorem jsFalsy_eq_false {k : Option String} (h : jsFalsy k = false) :
    ∃ s, k = some s ∧ s ≠ "" ∧ k.getD "" = s := by
  cases k with
  | none => simp [jsFalsy] at h
  | some s =>
    refine ⟨s, rfl, ?_, rfl⟩
    simpa [jsFalsy] using h

theorem getHeader_setHeader (m : HeaderMap) (k v : String) :
    getHeader (setHeader m k v) k = some v := by
  simp [getHeader, setHeader, List.find?]

theorem getHeader_objSpread_right (a b : HeaderMap) (k v : String)
    (h : getHeader b k = some v) : getHeader (objSpread a b) k = some v := by
  simp only [getHeader, objSpread, List.reverse_append, Option.map_eq_some'] at h ⊢
  obtain ⟨p, hp, hv⟩ := h
  exact ⟨p, by rw [List.find?_append, hp]; rfl, hv⟩

theorem finishResolve_ok_elim (ep : String) (isAz : Bool)
    (oc al : Option BaseEndpointCfg)
    (r : Except InitError (ClientOptions × Option String))
    (co : ClientOptions) (key : String)
    (h : finishResolve ep isAz oc al r = .ok (co, key)) :
    ∃ co1, r = .ok (co1, some key) ∧ key ≠ ""
      ∧ co.headers = co1.headers ∧ co.azure = co1.azure
      ∧ co.defaultQuery = co1.defaultQuery
      ∧ (∀ ac, al = some ac → co.streamRate = ac.streamRate)
      ∧ (isAz = true → al = none → co = co1) := by
  match r with
  | .error e => simp [finishResolve] at h
  | .ok (co1, key1) =>
    refine ⟨co1, ?_⟩
    simp only [finishResolve, userProvidesKey, Bool.false_and, if_false, Bool.false_eq_true,
      ite_false] at h
    cases hk : jsFalsy key1 with
    | true => rw [hk] at h; simp at h
    | false =>
      rw [hk] at h
      simp only [if_false, Bool.false_eq_true, ite_false, Except.ok.injEq, Prod.mk.injEq] at h
      obtain ⟨hco, hkey⟩ := h
      obtain ⟨s, hs, hne, hgd⟩ := jsFalsy_eq_false hk
      subst hco
      refine ⟨by rw [hs, ← hkey, hs]; simp, by rw [← hkey, hgd]; exact hne, ?_⟩
      cases al <;> cases isAz <;> cases oc <;> simp_all

theorem mapModelToAzureConfig_ok_lookups (mn : String)
    (mgm : List (String × String)) (gm : List (String × GroupConfig)) (m : MappedAzure)
    (h : mapModelToAzureConfig mn mgm gm = .ok m) :
    ∃ gn g, assocLookup mgm mn = some gn ∧ assocLookup gm gn = some g := by
  cases h1 : assocLookup mgm mn with
  | none => simp [mapModelToAzureConfig, h1] at h
  | some gn =>
    cases h2 : assocLookup gm gn with
    | none => simp [mapModelToAzureConfig, h1, h2] at h
    | some g => exact ⟨gn, g, rfl, h2⟩

theorem azureConfigStage_ok_elim (mn : String) (cfg : AzureConfig)
    (co co' : ClientOptions) (key : Option String)
    (h : azureConfigStage (some mn) cfg co = .ok (co', key)) :
    ∃ m, mapModelToAzureConfig mn cfg.modelGroupMap cfg.groupMap = .ok m
      ∧ key = some m.azureOptions.azureOpenAIApiKey
      ∧ co'.streamRate = some (cfg.streamRate.getD (if jsIncludes mn "gpt-4" then 30 else 17))
      ∧ (m.serverless = false →
          co'.azure = some m.azureOptions
          ∧ co'.headers = some (resolveHeaders (objSpread m.headers (co.headers.getD [])))
          ∧ co'.defaultQuery = co.defaultQuery)
      ∧ (m.serverless = true →
          co'.azure = none
          ∧ co'.headers = some (setHeader
              (resolveHeaders (objSpread m.headers (co.headers.getD [])))
              "api-key" m.azureOptions.azureOpenAIApiKey)
          ∧ co'.defaultQuery = (match m.azureOptions.azureOpenAIApiVersion with
              | some v => if v == "" then none else some [("api-version", v)]
              | none => none)) := by
  cases hm : mapModelToAzureConfig mn cfg.modelGroupMap cfg.groupMap with
  | error e => simp [azureConfigStage, hm] at h
  | ok m =>
    obtain ⟨gn, g, h1, h2⟩ := mapModelToAzureConfig_ok_lookups mn _ _ m hm
    simp only [azureConfigStage, hm, h1, h2] at h
    refine ⟨m, rfl, ?_⟩
    cases hs : m.serverless with
    | true =>
      simp only [hs, if_true, Except.ok.injEq, Prod.mk.injEq] at h
      obtain ⟨hco, hkey⟩ := h
      subst hco
      simp_all
    | false =>
      simp only [hs, Bool.false_eq_true, ite_false, Except.ok.injEq, Prod.mk.injEq] at h
      obtain ⟨hco, hkey⟩ := h
      subst hco
      simp_all

/-! ## Concrete fixtures for witnesses and counterexamples -/

/-- Environment with only the relay key configured. -/
def envRelay : EnvVars :=
  { PROXY := none, OPENAI_API_KEY := none, AZURE_API_KEY := none,
    OPENAI_REVERSE_PROXY := none, AZURE_OPENAI_BASEURL := none,
    OPENAI_SUMMARIZE := none, DEBUG_OPENAI := none,
    OPENROUTER_KEY := some "rk-test" }

/-- Environment with no relay key and no Azure key. -/
def envEmpty : EnvVars := { envRelay with OPENROUTER_KEY := none }

/-- A caller-supplied model-parameter object before the call. -/
def mpTest : ModelParams :=
  { model := none, user := none, rest := [("temperature", "1")] }

/-- A heap with the model-parameter object allocated at reference 0. -/
def heapTest : Heap := fun j => if j == 0 then some mpTest else none

/-- A plain request-level endpoint option bundle. -/
def epoPlain : EndpointOption :=
  { streamRate := none, headers := none, model_parameters := 0 }

/-- A plain request targeting the default endpoint. -/
def reqPlain : Req :=
  { bodyKey := none, bodyModel := some "gpt-4o", bodyEndpoint := none,
    userId := "user-1", azureLocals := none, openAILocals := none,
    allLocals := none, userKeys := [] }

/-- Azure app config with conflicting stream rate for the C1 fixture. -/
def azCfgC1 : AzureConfig :=
  { modelGroupMap := [], groupMap := [], titleConvo := none, titleModel := none,
    titleMethod := none, streamRate := some 5 }

/-- C1 fixture: conflicting stream rates supplied at all four layers. -/
def inpC1 : InitInput :=
  { env := envRelay,
    req := { reqPlain with
      azureLocals := some azCfgC1,
      openAILocals := some { streamRate := some 7, titleModel := none },
      allLocals := some { streamRate := some 9, titleModel := none } },
    endpointOption := { epoPlain with streamRate := some 3 },
    optionsOnly := false, overrideEndpoint := none, overrideModel := none }

/-- Deployment group `g1` of the Azure fixtures: not serverless, one header. -/
def grpG1 : GroupConfig :=
  { apiKey := "azure-key-1", instanceName := "inst", deploymentName := "dep",
    version := some "2024-02-01", baseURL := none, serverless := false,
    headers := [("X-Test", "azure-value")], addParams := none,
    dropParams := none, forcePrompt := none }

/-- Azure app config mapping `gpt-4-turbo` to group `g1`, no explicit
stream rate. -/
def azCfgG1 : AzureConfig :=
  { modelGroupMap := [("gpt-4-turbo", "g1")], groupMap := [("g1", grpG1)],
    titleConvo := none, titleModel := none, titleMethod := none,
    streamRate := none }

/-- An Azure-managed request for model `gpt-4-turbo` in group `g1`. -/
def reqAzure : Req :=
  { reqPlain with
    bodyModel := some "gpt-4-turbo",
    bodyEndpoint := some "azureOpenAI", azureLocals := some azCfgG1 }

/-- C2 fixture: the end-to-end Azure scenario of the spec. -/
def inpC2 : InitInput :=
  { env := envRelay, req := reqAzure, endpointOption := epoPlain,
    optionsOnly := false, overrideEndpoint := none, overrideModel := none }

/-- C5 fixture: request-level and Azure-derived headers share the name
`X-Test` with different values. -/
def inpC5 : InitInput :=
  { inpC2 with endpointOption :=
      { epoPlain with headers := some [("X-Test", "request-value")] } }

/-- The merged value of the contested `X-Test` header in the C5 fixture. -/
def c5MergedHeader : Option String :=
  match resolveOptions inpC5 with
  | .ok (co, _) => getHeader (co.headers.getD []) "X-Test"
  | .error _ => none

/-- Serverless variant of group `g1`. -/
def grpSrv : GroupConfig := { grpG1 with serverless := true }

/-- Azure app config whose group `g1` is serverless. -/
def azCfgSrv : AzureConfig := { azCfgG1 with groupMap := [("g1", grpSrv)] }

/-- C6 fixture: Azure-managed request resolving to a serverless group. -/
def inpC6 : InitInput :=
  { inpC2 with req := { reqAzure with azureLocals := some azCfgSrv } }

/-- C3 fixture: default endpoint, no relay key, no Azure key. -/
def inpC3 : InitInput :=
  { env := envEmpty, req := reqPlain, endpointOption := epoPlain,
    optionsOnly := false, overrideEndpoint := none, overrideModel := none }

/-- C4 fixture (rate configured): options-only with global stream rate 25. -/
def inpC4a : InitInput :=
  { env := envRelay,
    req := { reqPlain with allLocals := some { streamRate := some 25, titleModel := none } },
    endpointOption := epoPlain, optionsOnly := true,
    overrideEndpoint := none, overrideModel := none }

/-- C4 fixture (no rate configured anywhere): options-only. -/
def inpC4b : InitInput := { inpC4a with req := reqPlain }

/-- C7 fixture: relay-backed default endpoint with the relay key present. -/
def inpC7 : InitInput :=
  { env := envRelay, req := reqPlain, endpointOption := epoPlain,
    optionsOnly := false, overrideEndpoint := none, overrideModel := none }

/-- C9 fixture: the `all` config object exists but carries no stream rate,
while the endpoint-level config supplies one; options-only mode. -/
def inpC9 : InitInput :=
  { env := envRelay,
    req := { reqPlain with
      openAILocals := some { streamRate := some 11, titleModel := none },
      allLocals := some { streamRate := none, titleModel := none } },
    endpointOption := epoPlain, optionsOnly := true,
    overrideEndpoint := none, overrideModel := none }

/-- C10 fixture: options-only call whose model-parameter object lives at
reference 0 of `heapTest`. -/
def inpC10 : InitInput := { inpC4a with overrideModel := some "gpt-4o-mini" }

/-- A key store holding a prior record for the locked provider. -/
def storeTest : KeyStore := { entries := [("u1", "openAI", "old-value")] }

/-! ## Claim theorems -/

/-- C1: when conflicting `streamRate` values are supplied at all four
layers (request-level endpoint options, the Azure config, the non-Azure
endpoint-level config, and the app-level `all` config), the `streamRate` in
the merged client options equals the app-level `all` (global) value. -/
theorem resolveOptions_streamRate_global_precedence
    (inp : InitInput) (azc : AzureConfig) (oc ac : BaseEndpointCfg)
    (a b c d : Nat) (co : ClientOptions) (key : String)
    (hReq : inp.endpointOption.streamRate = some a)
    (hAzc : inp.req.azureLocals = some azc) (hAzr : azc.streamRate = some b)
    (hOc : inp.req.openAILocals = some oc) (hOcr : oc.streamRate = some c)
    (hAc : inp.req.allLocals = some ac) (hAcr : ac.streamRate = some d)
    (hRes : resolveOptions inp = .ok (co, key)) :
    co.streamRate = some d := by
  simp only [resolveOptions] at hRes
  rw [hAc] at hRes
  obtain ⟨co1, _, _, _, _, _, hall, _⟩ :=
    finishResolve_ok_elim _ _ _ _ _ _ _ hRes
  rw [hall ac rfl, hAcr]

/-- C1 witness: at the concrete fixture with rates 3 (request), 5 (Azure
config), 7 (endpoint config) and 9 (global config), the merged rate is 9. -/
theorem resolveOptions_streamRate_global_precedence_witness :
    ∃ co key, resolveOptions inpC1 = .ok (co, key) ∧ co.streamRate = some 9 := by
  obtain ⟨co, key, h⟩ : ∃ co key, resolveOptions inpC1 = .ok (co, key) := ⟨_, _, rfl⟩
  exact ⟨co, key, h,
    resolveOptions_streamRate_global_precedence inpC1 azCfgC1
      { streamRate := some 7, titleModel := none }
      { streamRate := some 9, titleModel := none }
      3 5 7 9 co key rfl rfl rfl rfl rfl rfl rfl h⟩

/-- C9: the mere presence of the app-level `all` config object overwrites
any previously merged stream rate with its own (possibly absent) value;
with the field absent the merged rate is `none` and the options-only
throttle hook is disabled. -/
theorem resolveOptions_allConfig_presence_overrides
    (inp : InitInput) (heap : Heap) (ac : BaseEndpointCfg) (co : ClientOptions)
    (key : String) (mp : ModelParams)
    (hAc : inp.req.allLocals = some ac) (hAcr : ac.streamRate = none)
    (hRes : resolveOptions inp = .ok (co, key))
    (hOpt : inp.optionsOnly = true)
    (hRef : heap inp.endpointOption.model_parameters = some mp) :
    co.streamRate = none
    ∧ ∃ opts, (initializeClient inp heap).1 = .optionsOnly opts
        ∧ opts.llmConfig.callbacks = none := by
  have h1 : co.streamRate = none := by
    simp only [resolveOptions] at hRes
    rw [hAc] at hRes
    obtain ⟨co1, _, _, _, _, _, hall, _⟩ :=
      finishResolve_ok_elim _ _ _ _ _ _ _ hRes
    rw [hall ac rfl, hAcr]
  refine ⟨h1, ?_⟩
  simp only [initializeClient, hRes, hOpt, if_true, hRef]
  simp [h1, natTruthy, getLLMConfig]

/-- C3: for the default relay-backed endpoint with no relay key and no
Azure key configured, `initializeClient` fails with the missing-credential
error naming the endpoint; and on any input at all, a returned full client
always carries a non-empty credential string. -/
theorem initializeClient_missing_credential
    (inp : InitInput) (heap : Heap)
    (hEp : jsEndpoint inp = "openAI")
    (hNoRelay : inp.env.OPENROUTER_KEY = none)
    (hNoAzure : inp.env.AZURE_API_KEY = none) :
    (initializeClient inp heap).1 = .failure (.apiKeyNotProvided "openAI")
    ∧ ∀ (inp' : InitInput) (heap' : Heap) (c : String × ClientOptions) (k : String),
        (initializeClient inp' heap').1 = .fullClient c k → k ≠ "" := by
  constructor
  · have hbeq : ("openAI" == "azureOpenAI") = false := by decide
    have hres : resolveOptions inp = .error (.apiKeyNotProvided "openAI") := by
      simp only [resolveOptions, hEp, hbeq]
      simp only [stage1, Bool.false_eq_true, ite_false, hNoRelay]
      simp [finishResolve, userProvidesKey, jsFalsy]
    simp [initializeClient, hres]
  · intro inp' heap' c k h
    cases hres : resolveOptions inp' with
    | error e => simp [initializeClient, hres] at h
    | ok p =>
      obtain ⟨co, key⟩ := p
      have hk : key ≠ "" := by
        simp only [resolveOptions] at hres
        obtain ⟨co1, _, hne, _⟩ := finishResolve_ok_elim _ _ _ _ _ _ _ hres
        exact hne
      simp only [initializeClient, hres] at h
      split at h
      · split at h
        · simp at h
        · split at h <;> simp at h
      · simp only [Prod.fst] at h
        cases h
        exact hk

/-- C7: the result of `initializeClient` is independent of the stored
per-user keys (no per-user key lookup occurs), and on the relay-backed
default endpoint the resolved credential is exactly the process-wide relay
key `OPENROUTER_KEY`. -/
theorem initializeClient_relay_key_independence
    (inp : InitInput) (heap : Heap) (k1 k2 : List (String × String))
    (co : ClientOptions) (key : String)
    (hEp : jsEndpoint inp = "openAI")
    (hRes : resolveOptions inp = .ok (co, key)) :
    initializeClient { inp with req := { inp.req with userKeys := k1 } } heap
      = initializeClient { inp with req := { inp.req with userKeys := k2 } } heap
    ∧ inp.env.OPENROUTER_KEY = some key := by
  constructor
  · rfl
  · have hbeq : ("openAI" == "azureOpenAI") = false := by decide
    simp only [resolveOptions, hEp, hbeq] at hRes
    simp only [stage1, Bool.false_eq_true, ite_false] at hRes
    obtain ⟨co1, hr, _⟩ := finishResolve_ok_elim _ _ _ _ _ _ _ hRes
    simp only [Except.ok.injEq, Prod.mk.injEq] at hr
    exact hr.2

/-- C4: in options-only mode, a truthy merged stream rate `r` yields
exactly one throttle callback of per-token delay `r` milliseconds; a falsy
merged stream rate yields the bare `getLLMConfig` result, with no callbacks
field attached. -/
theorem initializeClient_options_only_throttle
    (inp : InitInput) (heap : Heap) (co : ClientOptions) (key : String) (mp : ModelParams)
    (hOpt : inp.optionsOnly = true)
    (hRes : resolveOptions inp = .ok (co, key))
    (hRef : heap inp.endpointOption.model_parameters = some mp) :
    (∀ r : Nat, co.streamRate = some r → r ≠ 0 →
      ∃ opts, (initializeClient inp heap).1 = .optionsOnly opts
        ∧ opts.llmConfig.callbacks = some [r])
    ∧ (natTruthy co.streamRate = false →
      ∃ opts, (initializeClient inp heap).1 = .optionsOnly opts
        ∧ opts.llmConfig.callbacks = none
        ∧ opts = getLLMConfig key
            { co with modelOptions := some inp.endpointOption.model_parameters }) := by
  constructor
  · intro r hr hr0
    simp only [initializeClient, hRes, hOpt, if_true, hRef]
    simp [hr, natTruthy, hr0, getLLMConfig]
  · intro hf
    simp only [initializeClient, hRes, hOpt, if_true, hRef]
    simp [hf, getLLMConfig]

/-- C10: in options-only mode the caller-supplied model-parameter object is
mutated in place: after the call the heap cell behind the caller's
reference carries the resolved model name and the requesting user's id, and
the returned options share that very reference. -/
theorem initializeClient_mutates_caller_params
    (inp : InitInput) (heap : Heap) (co : ClientOptions) (key : String) (mp : ModelParams)
    (hOpt : inp.optionsOnly = true)
    (hRes : resolveOptions inp = .ok (co, key))
    (hRef : heap inp.endpointOption.model_parameters = some mp) :
    (initializeClient inp heap).2 inp.endpointOption.model_parameters
      = some { mp with model := jsModelName inp, user := some inp.req.userId }
    ∧ ∃ opts, (initializeClient inp heap).1 = .optionsOnly opts
        ∧ opts.llmConfig.modelOptions = some inp.endpointOption.model_parameters := by
  simp only [initializeClient, hRes, hOpt, if_true, hRef]
  constructor
  · split <;> simp [heapSet]
  · split
    · exact ⟨_, rfl, rfl⟩
    · exact ⟨_, rfl, rfl⟩

/-- C2: for an Azure-managed request whose Azure configuration supplies no
explicit stream rate (and with no global override present), the derived
`streamRate` is 30 when the model name contains the substring `gpt-4`
(case-sensitive literal containment) and 17 otherwise. -/
theorem resolveOptions_azure_default_streamRate
    (inp : InitInput) (cfg : AzureConfig) (mn : String) (co : ClientOptions) (key : String)
    (hEp : jsEndpoint inp = "azureOpenAI")
    (hAz : inp.req.azureLocals = some cfg)
    (hMn : jsModelName inp = some mn)
    (hRate : cfg.streamRate = none)
    (hAll : inp.req.allLocals = none)
    (hRes : resolveOptions inp = .ok (co, key)) :
    co.streamRate = some (if jsIncludes mn "gpt-4" then 30 else 17) := by
  have hbeq : ("azureOpenAI" == "azureOpenAI") = true := by decide
  simp only [resolveOptions, hEp, hbeq] at hRes
  rw [hAll] at hRes
  obtain ⟨co1, hr, _, _, _, _, _, hid⟩ :=
    finishResolve_ok_elim _ _ _ _ _ _ _ hRes
  have hco : co = co1 := hid rfl rfl
  simp only [stage1, if_true, hAz, hMn] at hr
  obtain ⟨m, _, _, hsr, _⟩ := azureConfigStage_ok_elim _ _ _ _ _ hr
  rw [hco, hsr, hRate]
  simp

/-- C6: for an Azure-managed request resolving to a serverless deployment
group, the resolved key is placed in the header map under `api-key`, the
`azure` credential block is left unattached (falsy), and an `api-version`
query parameter is attached exactly when an API version is configured in
the resolved azure options. -/
theorem resolveOptions_serverless_api_key_header
    (inp : InitInput) (cfg : AzureConfig) (mn : String) (m : MappedAzure)
    (co : ClientOptions) (key : String)
    (hEp : jsEndpoint inp = "azureOpenAI")
    (hAz : inp.req.azureLocals = some cfg)
    (hMn : jsModelName inp = some mn)
    (hMap : mapModelToAzureConfig mn cfg.modelGroupMap cfg.groupMap = .ok m)
    (hSrv : m.serverless = true)
    (hRes : resolveOptions inp = .ok (co, key)) :
    key = m.azureOptions.azureOpenAIApiKey
    ∧ getHeader (co.headers.getD []) "api-key" = some key
    ∧ co.azure = none
    ∧ (∀ v, m.azureOptions.azureOpenAIApiVersion = some v → v ≠ "" →
        co.defaultQuery = some [("api-version", v)])
    ∧ (m.azureOptions.azureOpenAIApiVersion = none → co.defaultQuery = none) := by
  have hbeq : ("azureOpenAI" == "azureOpenAI") = true := by decide
  simp only [resolveOptions, hEp, hbeq] at hRes
  obtain ⟨co1, hr, hne, hh, haz, hdq, _, _⟩ :=
    finishResolve_ok_elim _ _ _ _ _ _ _ hRes
  simp only [stage1, if_true, hAz, hMn] at hr
  obtain ⟨m', hmap', hkey, _, _, hsv⟩ := azureConfigStage_ok_elim _ _ _ _ _ hr
  have hm : m' = m := by
    rw [hmap'] at hMap
    exact Except.ok.inj hMap
  subst hm
  obtain ⟨hsvA, hsvH, hsvQ⟩ := hsv hSrv
  have hkv : key = m'.azureOptions.azureOpenAIApiKey := Option.some.inj hkey
  refine ⟨hkv, ?_, ?_, ?_, ?_⟩
  · rw [hh, hsvH, hkv]
    simp [getHeader_setHeader]
  · rw [haz, hsvA]
  · intro v hv hv0
    rw [hdq, hsvQ, hv]
    simp [hv0]
  · intro hv
    rw [hdq, hsvQ, hv]

/-- C5 counterexample: at the concrete input `inpC5`, the request-level
endpoint options and the Azure-derived overrides both supply a header named
`X-Test`, and the merged client options carry the request-level value, not
the Azure-derived one — refuting the claim that the Azure-derived value
wins the header merge. -/
theorem azure_header_override_counterexample :
    c5MergedHeader = some "request-value"
    ∧ c5MergedHeader ≠ some "azure-value" := by decide

/-- C5 amended: when the request-level endpoint options and the
Azure-derived overrides supply a header with the same name (non-serverless
group), the merged header map contains the request-level value: in the
header merge the existing request-supplied headers shadow the Azure-derived
ones, which only fill names not already present. -/
theorem resolveOptions_request_header_precedence
    (inp : InitInput) (cfg : AzureConfig) (mn : String) (m : MappedAzure)
    (co : ClientOptions) (key : String) (hm : HeaderMap) (name v : String)
    (hEp : jsEndpoint inp = "azureOpenAI")
    (hAz : inp.req.azureLocals = some cfg)
    (hMn : jsModelName inp = some mn)
    (hMap : mapModelToAzureConfig mn cfg.modelGroupMap cfg.groupMap = .ok m)
    (hSrv : m.serverless = false)
    (hHdr : inp.endpointOption.headers = some hm)
    (hName : getHeader hm name = some v)
    (hRes : resolveOptions inp = .ok (co, key)) :
    getHeader (co.headers.getD []) name = some v := by
  have hbeq : ("azureOpenAI" == "azureOpenAI") = true := by decide
  simp only [resolveOptions, hEp, hbeq] at hRes
  obtain ⟨co1, hr, _, hh, _, _, _, _⟩ :=
    finishResolve_ok_elim _ _ _ _ _ _ _ hRes
  simp only [stage1, if_true, hAz, hMn] at hr
  obtain ⟨m', hmap', _, _, hns, _⟩ := azureConfigStage_ok_elim _ _ _ _ _ hr
  have hmm : m' = m := by
    rw [hmap'] at hMap
    exact Except.ok.inj hMap
  subst hmm
  obtain ⟨_, hnsH, _⟩ := hns hSrv
  have hbase : (baseClientOptions inp).headers = some hm := by
    simp [baseClientOptions, hHdr]
  rw [hh, hnsH, hbase]
  simp only [Option.getD_some, resolveHeaders]
  exact getHeader_objSpread_right _ _ _ _ hName

/-- C8: an authenticated `PUT /keys` whose provider name is the locked
`openAI` identifier responds 403 with an explanatory body, performs no
upsert and leaves the store untouched; any other provider name results in
an upsert of the caller's record and a 201 response with an empty body. -/
theorem putKeysHandler_locked_provider
    (store : KeyStore) (userId name value : String) :
    (name = "openAI" →
      (putKeysHandler store userId name value).1.status = 403
      ∧ (putKeysHandler store userId name value).1.body.isSome = true
      ∧ (putKeysHandler store userId name value).2 = store)
    ∧ (name ≠ "openAI" →
      (putKeysHandler store userId name value).1.status = 201
      ∧ (putKeysHandler store userId name value).1.body = none
      ∧ (putKeysHandler store userId name value).2 = updateUserKey store userId name value
      ∧ getKeyRecord (putKeysHandler store userId name value).2 userId name
          = some value) := by
  constructor
  · intro h
    subst h
    simp [putKeysHandler]
  · intro h
    have hb : (name == "openAI") = false := by
      simp only [beq_eq_false_iff_ne, ne_eq]
      exact h
    simp [putKeysHandler, hb, updateUserKey, getKeyRecord, List.find?]

/-! ## Witnesses -/

/-- C9 witness: in the `inpC9` fixture the `all` config exists without a
stream rate while the endpoint config supplies 11; the merged rate is
`none` and options-only mode attaches no callbacks. -/
theorem resolveOptions_allConfig_presence_overrides_witness :
    ∃ co key, resolveOptions inpC9 = .ok (co, key) ∧ co.streamRate = none
      ∧ ∃ opts, (initializeClient inpC9 heapTest).1 = .optionsOnly opts
          ∧ opts.llmConfig.callbacks = none := by
  obtain ⟨co, key, h⟩ : ∃ co key, resolveOptions inpC9 = .ok (co, key) := ⟨_, _, rfl⟩
  obtain ⟨h1, h2⟩ := resolveOptions_allConfig_presence_overrides inpC9 heapTest
    { streamRate := none, titleModel := none } co key mpTest rfl rfl h rfl rfl
  exact ⟨co, key, h, h1, h2⟩

/-- C3 witness: at the `inpC3` fixture (default endpoint, no relay key, no
Azure key) initialization fails with the error naming the endpoint. -/
theorem initializeClient_missing_credential_witness :
    (initializeClient inpC3 heapTest).1 = .failure (.apiKeyNotProvided "openAI") :=
  (initializeClient_missing_credential inpC3 heapTest rfl rfl rfl).1

/-- C7 witness: at the `inpC7` fixture two runs differing only in stored
user keys coincide, and the resolved credential is the relay key. -/
theorem initializeClient_relay_key_independence_witness :
    ∃ co key, resolveOptions inpC7 = .ok (co, key)
      ∧ (initializeClient { inpC7 with req := { inpC7.req with userKeys := [("u1", "k1")] } } heapTest
          = initializeClient { inpC7 with req := { inpC7.req with userKeys := [("u1", "k2")] } } heapTest)
      ∧ inpC7.env.OPENROUTER_KEY = some key := by
  obtain ⟨co, key, h⟩ : ∃ co key, resolveOptions inpC7 = .ok (co, key) := ⟨_, _, rfl⟩
  obtain ⟨he, hk⟩ := initializeClient_relay_key_independence inpC7 heapTest
    [("u1", "k1")] [("u1", "k2")] co key rfl h
  exact ⟨co, key, h, he, hk⟩

/-- C4 witness: with global rate 25 configured the options-only result
carries exactly the one callback `[25]`; with no rate configured it carries
none. -/
theorem initializeClient_options_only_throttle_witness :
    (∃ co key, resolveOptions inpC4a = .ok (co, key) ∧ co.streamRate = some 25
      ∧ ∃ opts, (initializeClient inpC4a heapTest).1 = .optionsOnly opts
          ∧ opts.llmConfig.callbacks = some [25])
    ∧ (∃ co key, resolveOptions inpC4b = .ok (co, key) ∧ natTruthy co.streamRate = false
      ∧ ∃ opts, (initializeClient inpC4b heapTest).1 = .optionsOnly opts
          ∧ opts.llmConfig.callbacks = none) := by
  constructor
  · refine ⟨_, _, rfl, rfl, ?_⟩
    exact (initializeClient_options_only_throttle inpC4a heapTest _ _ mpTest
      rfl rfl rfl).1 25 rfl (by decide)
  · refine ⟨_, _, rfl, rfl, ?_⟩
    obtain ⟨opts, h1, h2, _⟩ := (initializeClient_options_only_throttle inpC4b heapTest _ _ mpTest
      rfl rfl rfl).2 rfl
    exact ⟨opts, h1, h2⟩

/-- C10 witness: at the `inpC10` fixture the heap cell at the caller's
reference carries the stamped model name and user id after the call, and
the returned options reference the same cell. -/
theorem initializeClient_mutates_caller_params_witness :
    (initializeClient inpC10 heapTest).2 inpC10.endpointOption.model_parameters
      = some { mpTest with model := jsModelName inpC10, user := some inpC10.req.userId }
    ∧ ∃ opts, (initializeClient inpC10 heapTest).1 = .optionsOnly opts
        ∧ opts.llmConfig.modelOptions = some inpC10.endpointOption.model_parameters :=
  initializeClient_mutates_caller_params inpC10 heapTest _ _ mpTest rfl rfl rfl

/-- C2 witness: the end-to-end scenario of the spec: model `gpt-4-turbo`
mapped to group `g1` with no explicit stream rate resolves with
`streamRate = 30`. -/
theorem resolveOptions_azure_default_streamRate_witness :
    ∃ co key, resolveOptions inpC2 = .ok (co, key) ∧ co.streamRate = some 30 := by
  refine ⟨_, _, rfl, ?_⟩
  have h := resolveOptions_azure_default_streamRate inpC2 azCfgG1 "gpt-4-turbo" _ _
    rfl rfl rfl rfl rfl rfl
  exact h.trans (by decide)

/-- C6 witness: at the serverless fixture the resolved key `azure-key-1`
appears under the `api-key` header, no azure block is attached, and the
configured API version yields the `api-version` query parameter. -/
theorem resolveOptions_serverless_api_key_header_witness :
    ∃ co key, resolveOptions inpC6 = .ok (co, key)
      ∧ key = "azure-key-1"
      ∧ getHeader (co.headers.getD []) "api-key" = some key
      ∧ co.azure = none
      ∧ co.defaultQuery = some [("api-version", "2024-02-01")] := by
  have h := resolveOptions_serverless_api_key_header inpC6 azCfgSrv "gpt-4-turbo" _ _ _
    rfl rfl rfl rfl rfl rfl
  exact ⟨_, _, rfl, h.1, h.2.1, h.2.2.1, h.2.2.2.1 "2024-02-01" rfl (by decide)⟩

/-- C5 witness for the amended claim: at the `inpC5` fixture the contested
`X-Test` header resolves to the request-level value. -/
theorem resolveOptions_request_header_precedence_witness :
    ∃ co key, resolveOptions inpC5 = .ok (co, key)
      ∧ getHeader (co.headers.getD []) "X-Test" = some "request-value" := by
  refine ⟨_, _, rfl, ?_⟩
  exact resolveOptions_request_header_precedence inpC5 azCfgG1 "gpt-4-turbo" _ _ _
    [("X-Test", "request-value")] "X-Test" "request-value"
    rfl rfl rfl rfl rfl rfl (by decide) rfl

/-- C8 witness: setting a key for `openAI` is rejected with 403 and leaves
the prior record intact; setting one for another provider succeeds with 201
and upserts the record. -/
theorem putKeysHandler_locked_provider_witness :
    (putKeysHandler storeTest "u1" "openAI" "new-value").1.status = 403
    ∧ (putKeysHandler storeTest "u1" "openAI" "new-value").2 = storeTest
    ∧ (putKeysHandler storeTest "u1" "anthropic" "v2").1.status = 201
    ∧ getKeyRecord (putKeysHandler storeTest "u1" "anthropic" "v2").2 "u1" "anthropic"
        = some "v2" := by
  refine ⟨?_, ?_, ?_, ?_⟩
  · exact ((putKeysHandler_locked_provider storeTest "u1" "openAI" "new-value").1 rfl).1
  · exact ((putKeysHandler_locked_provider storeTest "u1" "openAI" "new-value").1 rfl).2.2
  · exact ((putKeysHandler_locked_provider storeTest "u1" "anthropic" "v2").2 (by decide)).1
  · exact ((putKeysHandler_locked_provider storeTest "u1" "anthropic" "v2").2 (by decide)).2.2.2
